import Mathlib

/-!
Verification development for the ESP-IDF state-machine example
(`cpp_span_visit_concept.cpp`).

The C++ `float` samples are modelled as NaN-extended rationals:
`FVal := Option ℚ`, where `none` plays the role of NaN.  Every ordered
comparison involving `none` is `false`, and `none` is absorbing for
addition and division, matching IEEE semantics for the operations the
state machine actually performs (exact rational arithmetic stands in for
rounded float arithmetic; no claim here depends on rounding).
-/

/-- A sensor sample: a float value, with `none` standing for NaN. -/
abbrev FVal := Option ℚ

/-- Float addition (`sum += val`): NaN is absorbing. -/
def fadd : FVal → FVal → FVal
  | some a, some b => some (a + b)
  | _, _ => none

/-- Float strict greater-than (`x > y`): any comparison with NaN is false. -/
def fgt : FVal → FVal → Bool
  | some a, some b => decide (b < a)
  | _, _ => false

/-- Float strict less-than (`x < y`): any comparison with NaN is false. -/
def flt : FVal → FVal → Bool
  | some a, some b => decide (a < b)
  | _, _ => false

/-- Float division by a machine-integer count (`sum / n`).  The count is
never zero at any reachable call site; division by zero maps to `none`. -/
def fdivNat : FVal → ℕ → FVal
  | some a, n => if n = 0 then none else some (a / (n : ℚ))
  | none, _ => none

/-- `std::min(a, b)` on floats: `(b < a) ? b : a`. -/
def fminF (a b : FVal) : FVal := if flt b a then b else a

/-- `std::max(a, b)` on floats: `(a < b) ? b : a`. -/
def fmaxF (a b : FVal) : FVal := if flt a b then b else a

/-- `std::numeric_limits<float>::max()` as an exact rational. -/
def fltMax : ℚ := (2 ^ 24 - 1) * 2 ^ 104

/-- `enum class StateId { IDLE, MONITORING, ALERT, CALIBRATING }`. -/
inductive StateId
  | IDLE
  | MONITORING
  | ALERT
  | CALIBRATING
deriving DecidableEq

/-- The closed state variant
`std::variant<IdleState, MonitoringState, AlertState, CalibratingState>`,
with each alternative carrying the fields of the corresponding struct. -/
inductive StateVariant
  | IdleState
  | MonitoringState (average_value : FVal) (sample_count : ℤ)
  | AlertState (message : String) (threshold : FVal)
  | CalibratingState (reference_value : FVal) (calibration_step : ℤ)
deriving DecidableEq

/-- `current_state_.index()`: the zero-based alternative index of the variant. -/
def variantIndex : StateVariant → ℕ
  | .IdleState => 0
  | .MonitoringState _ _ => 1
  | .AlertState _ _ => 2
  | .CalibratingState _ _ => 3

/-- `static_cast<StateId>(i)` for the indices that actually occur (0–3). -/
def stateIdOfIndex : ℕ → StateId
  | 0 => .IDLE
  | 1 => .MONITORING
  | 2 => .ALERT
  | _ => .CALIBRATING

/-- The `StateId` enumerator naming each variant alternative (the intended
correspondence the discriminant cache is supposed to track). -/
def stateIdOf : StateVariant → StateId
  | .IdleState => .IDLE
  | .MonitoringState _ _ => .MONITORING
  | .AlertState _ _ => .ALERT
  | .CalibratingState _ _ => .CALIBRATING

/-- The `StateMachine` class: current state variant, cached discriminant,
the `std::array<float, 10>` sample ring buffer (as a length-10 list) and
the monotone push counter `buffer_index_`. -/
structure StateMachine where
  current_state : StateVariant
  current_id : StateId
  sensor_buffer : List FVal
  buffer_index : ℕ
deriving DecidableEq

/-- A freshly constructed `StateMachine`: `IdleState`, id `IDLE`, the
value-initialised (all-zero) buffer, index 0. -/
def StateMachine.init : StateMachine :=
  { current_state := .IdleState
    current_id := .IDLE
    sensor_buffer := List.replicate 10 (some 0)
    buffer_index := 0 }

/-- `transition_to(new_state)`: replace the variant and recompute the cached
id by casting the variant's index. -/
def StateMachine.transition_to (sm : StateMachine) (new_state : StateVariant) :
    StateMachine :=
  { sm with
    current_state := new_state
    current_id := stateIdOfIndex (variantIndex new_state) }

/-- The buffer update in `process_sensors`:
`sensor_buffer_[buffer_index_ % sensor_buffer_.size()] = r; buffer_index_++`. -/
def push_reading (sm : StateMachine) (r : FVal) : StateMachine :=
  { sm with
    sensor_buffer :=
      sm.sensor_buffer.set (sm.buffer_index % sm.sensor_buffer.length) r
    buffer_index := sm.buffer_index + 1 }

/-- The summation loop in the `MonitoringState` branch:
`float sum = 0; for (auto val : sensor_buffer_ | views::take(buffer_index_)) sum += val;`
(`List.take` already caps at the list length, like `views::take`). -/
def bufferSum (buf : List FVal) (idx : ℕ) : FVal :=
  (buf.take idx).foldl fadd (some 0)

/-- `process_sensors(sensors...)`, abstracted over the list of readings the
sensors returned this tick: push the first reading (if any) into the ring
buffer, then run the `std::visit` transition logic on the current variant. -/
def process_sensors (sm : StateMachine) (readings : List FVal) : StateMachine :=
  let sm1 :=
    match readings with
    | [] => sm
    | r :: _ => push_reading sm r
  match sm1.current_state with
  | .IdleState =>
    match readings with
    | [] => sm1
    | r :: _ =>
      if fgt r (some 20) then
        sm1.transition_to (.MonitoringState r 1)
      else sm1
  | .MonitoringState _ c =>
    let avg := fdivNat (bufferSum sm1.sensor_buffer sm1.buffer_index)
      (min sm1.buffer_index sm1.sensor_buffer.length)
    let sm2 := { sm1 with current_state := .MonitoringState avg (c + 1) }
    if fgt avg (some 30) then
      sm2.transition_to (.AlertState "Temperature High" (some 30))
    else sm2
  | .AlertState _ _ =>
    match readings with
    | [] => sm1
    | r :: _ =>
      if flt r (some 25) then
        sm1.transition_to (.CalibratingState (some (45 / 2)) 1)
      else sm1
  | .CalibratingState ref step =>
    let sm2 := { sm1 with current_state := .CalibratingState ref (step + 1) }
    if step + 1 > 5 then sm2.transition_to .IdleState else sm2

/-- `process_reading(value)`: one tick fed with a single reading. -/
def process_reading (sm : StateMachine) (v : FVal) : StateMachine :=
  process_sensors sm [v]

/-- The average the `MonitoringState` branch computes after pushing `v`:
sum over the active slots of the post-push buffer, divided by
`min(buffer_index_, sensor_buffer_.size())`. -/
def nextAverage (sm : StateMachine) (v : FVal) : FVal :=
  let sm1 := push_reading sm v
  fdivNat (bufferSum sm1.sensor_buffer sm1.buffer_index)
    (min sm1.buffer_index sm1.sensor_buffer.length)

/-- `get_buffer_stats()`: `(0, 0)` when `buffer_index_ == 0`, otherwise the
min/max fold over the active span, seeded with `FLT_MAX` / `lowest()`. -/
def get_buffer_stats (sm : StateMachine) : FVal × FVal :=
  if sm.buffer_index = 0 then (some 0, some 0)
  else
    let active := sm.sensor_buffer.take
      (min sm.buffer_index sm.sensor_buffer.length)
    let p := active.foldl (fun (p : FVal × FVal) v => (fminF p.1 v, fmaxF p.2 v))
      (some fltMax, some (-fltMax))
    p

/-- `get_current_state_id()`. -/
def get_current_state_id (sm : StateMachine) : StateId := sm.current_id

/-- Number of valid entries held by the ring buffer:
`min(buffer_index_, sensor_buffer_.size())`. -/
def active_count (sm : StateMachine) : ℕ :=
  min sm.buffer_index sm.sensor_buffer.length

/-- Abstraction function: the buffer's active contents read out in arrival
order.  While not yet full that is the first `buffer_index_` slots; once
full the oldest active sample sits at slot `buffer_index_ % size`, so the
read-out is the rotation starting there. -/
def active_contents (sm : StateMachine) : List FVal :=
  if sm.buffer_index ≤ sm.sensor_buffer.length then
    sm.sensor_buffer.take sm.buffer_index
  else
    sm.sensor_buffer.rotate (sm.buffer_index % sm.sensor_buffer.length)

/-- Running the machine from construction over an ordered list of readings,
one `process_reading` per reading. -/
def afterReadings (inputs : List FVal) : StateMachine :=
  inputs.foldl process_reading StateMachine.init

/-- `StateMachineManager::update`, abstracted over the three sensor values of
each tick: every tick feeds `process_sensors` the readings in fixed order. -/
def managerRun (ticks : List (FVal × FVal × FVal)) : StateMachine :=
  ticks.foldl (fun sm t => process_sensors sm [t.1, t.2.1, t.2.2])
    StateMachine.init

/-- The operations a client can perform on a `StateMachine`. -/
inductive MachineOp
  | transition (s : StateVariant)
  | process (readings : List FVal)

/-- Apply one client operation. -/
def applyOp (sm : StateMachine) : MachineOp → StateMachine
  | .transition s => sm.transition_to s
  | .process rs => process_sensors sm rs

/-- Run a sequence of client operations from a fresh machine. -/
def runOps (ops : List MachineOp) : StateMachine :=
  ops.foldl applyOp StateMachine.init

/-! ### Basic step lemmas -/

lemma push_reading_current_state (sm : StateMachine) (r : FVal) :
    (push_reading sm r).current_state = sm.current_state := rfl

lemma push_reading_current_id (sm : StateMachine) (r : FVal) :
    (push_reading sm r).current_id = sm.current_id := rfl

lemma push_reading_buffer_index (sm : StateMachine) (r : FVal) :
    (push_reading sm r).buffer_index = sm.buffer_index + 1 := rfl

lemma push_reading_sensor_buffer (sm : StateMachine) (r : FVal) :
    (push_reading sm r).sensor_buffer =
      sm.sensor_buffer.set (sm.buffer_index % sm.sensor_buffer.length) r := rfl

lemma transition_to_sensor_buffer (sm : StateMachine) (s : StateVariant) :
    (sm.transition_to s).sensor_buffer = sm.sensor_buffer := rfl

lemma transition_to_buffer_index (sm : StateMachine) (s : StateVariant) :
    (sm.transition_to s).buffer_index = sm.buffer_index := rfl

/-- Processing a reading updates the buffer exactly as `push_reading` does,
whatever transition fires. -/
lemma process_reading_buffer (sm : StateMachine) (v : FVal) :
    (process_reading sm v).sensor_buffer = (push_reading sm v).sensor_buffer ∧
      (process_reading sm v).buffer_index = sm.buffer_index + 1 := by
  unfold process_reading process_sensors
  rcases h : sm.current_state with _ | ⟨a, c⟩ | ⟨m, t⟩ | ⟨r, s⟩ <;>
    simp [push_reading_current_state, h, StateMachine.transition_to,
      push_reading] <;> split <;> exact ⟨rfl, rfl⟩

lemma step_idle_go (sm : StateMachine) (v : FVal)
    (h : sm.current_state = .IdleState) (hv : fgt v (some 20) = true) :
    (process_reading sm v).current_state = .MonitoringState v 1 := by
  unfold process_reading process_sensors
  simp [push_reading_current_state, h, hv, StateMachine.transition_to]

lemma step_idle_stay (sm : StateMachine) (v : FVal)
    (h : sm.current_state = .IdleState) (hv : fgt v (some 20) = false) :
    (process_reading sm v).current_state = .IdleState := by
  unfold process_reading process_sensors
  simp [push_reading_current_state, h, hv, push_reading]

lemma step_monitoring (sm : StateMachine) (v a : FVal) (c : ℤ)
    (h : sm.current_state = .MonitoringState a c) :
    (process_reading sm v).current_state =
      if fgt (nextAverage sm v) (some 30) then
        .AlertState "Temperature High" (some 30)
      else .MonitoringState (nextAverage sm v) (c + 1) := by
  unfold process_reading process_sensors nextAverage
  simp only [push_reading_current_state, h]
  split <;> simp_all [StateMachine.transition_to]

lemma step_alert_go (sm : StateMachine) (v : FVal) (m : String) (t : FVal)
    (h : sm.current_state = .AlertState m t) (hv : flt v (some 25) = true) :
    (process_reading sm v).current_state = .CalibratingState (some (45 / 2)) 1 := by
  unfold process_reading process_sensors
  simp [push_reading_current_state, h, hv, StateMachine.transition_to]

lemma step_alert_stay (sm : StateMachine) (v : FVal) (m : String) (t : FVal)
    (h : sm.current_state = .AlertState m t) (hv : flt v (some 25) = false) :
    (process_reading sm v).current_state = .AlertState m t := by
  unfold process_reading process_sensors
  simp [push_reading_current_state, h, hv, push_reading]

lemma step_calibrating (sm : StateMachine) (v : FVal) (ref : FVal) (s : ℤ)
    (h : sm.current_state = .CalibratingState ref s) :
    (process_reading sm v).current_state =
      if s + 1 > 5 then .IdleState else .CalibratingState ref (s + 1) := by
  unfold process_reading process_sensors
  simp only [push_reading_current_state, h]
  split <;> simp_all [StateMachine.transition_to]

/-! ### NaN propagation lemmas -/

lemma fgt_none_left (x : FVal) : fgt none x = false := rfl

lemma flt_none_left (x : FVal) : flt none x = false := rfl

lemma fadd_none_right (x : FVal) : fadd x none = none := by
  cases x <;> rfl

lemma foldl_fadd_none_acc (l : List FVal) : l.foldl fadd none = none := by
  induction l with
  | nil => rfl
  | cons x xs ih => simpa [fadd] using ih

lemma foldl_fadd_of_mem_none (l : List FVal) (acc : FVal) (h : none ∈ l) :
    l.foldl fadd acc = none := by
  induction l generalizing acc with
  | nil => cases h
  | cons x xs ih =>
    rcases List.mem_cons.mp h with hx | hxs
    · subst hx
      simp only [List.foldl_cons, fadd_none_right]
      exact foldl_fadd_none_acc xs
    · exact ih _ hxs

lemma fdivNat_zero (x : FVal) : fdivNat x 0 = none := by
  cases x <;> simp [fdivNat]

/-- A NaN reading poisons the recomputed running average. -/
lemma nextAverage_none (sm : StateMachine) : nextAverage sm none = none := by
  unfold nextAverage bufferSum
  rcases Nat.eq_zero_or_pos sm.sensor_buffer.length with h0 | hpos
  · have : min (sm.buffer_index + 1) (push_reading sm none).sensor_buffer.length = 0 := by
      simp [push_reading, h0]
    simp only [push_reading_buffer_index, push_reading_sensor_buffer] at this ⊢
    rw [this, fdivNat_zero]
  · set j := sm.buffer_index % sm.sensor_buffer.length with hj
    have hjlen : j < sm.sensor_buffer.length := Nat.mod_lt _ hpos
    have hjidx : j < sm.buffer_index + 1 :=
      Nat.lt_succ_of_le (Nat.mod_le _ _)
    have hmem : (none : FVal) ∈
        ((sm.sensor_buffer.set j none).take (sm.buffer_index + 1)) := by
      have hlt : j < ((sm.sensor_buffer.set j none).take
          (sm.buffer_index + 1)).length := by
        simp [List.length_take, hjlen, hjidx]
      have hval : ((sm.sensor_buffer.set j none).take (sm.buffer_index + 1))[j] =
          (none : FVal) := by
        rw [List.getElem_take]
        exact List.getElem_set_self (by simpa using hjlen)
      have hmem0 := List.getElem_mem hlt
      rw [hval] at hmem0
      exact hmem0
    simp only [push_reading_buffer_index, push_reading_sensor_buffer, ← hj]
    rw [foldl_fadd_of_mem_none _ _ hmem]
    rfl

/-! ### Discriminant consistency machinery -/

lemma stateIdOfIndex_variantIndex (s : StateVariant) :
    stateIdOfIndex (variantIndex s) = stateIdOf s := by
  cases s <;> rfl

/-- The cached discriminant names the live variant alternative. -/
def idConsistent (sm : StateMachine) : Prop :=
  sm.current_id = stateIdOf sm.current_state

lemma idConsistent_transition_to (sm : StateMachine) (s : StateVariant) :
    idConsistent (sm.transition_to s) := by
  simp [idConsistent, StateMachine.transition_to, stateIdOfIndex_variantIndex]

lemma idConsistent_process_sensors (sm : StateMachine) (rs : List FVal)
    (h : idConsistent sm) : idConsistent (process_sensors sm rs) := by
  unfold idConsistent at h ⊢
  unfold process_sensors
  rcases hs : sm.current_state with _ | ⟨a, c⟩ | ⟨m, t⟩ | ⟨r, s⟩ <;>
    rcases rs with _ | ⟨v, rest⟩ <;>
    simp only [push_reading_current_state, push_reading_current_id, hs] <;>
    first
      | (split <;>
          simp_all [StateMachine.transition_to, stateIdOfIndex_variantIndex,
            push_reading, stateIdOf])
      | simp_all [StateMachine.transition_to, stateIdOfIndex_variantIndex,
          push_reading, stateIdOf]

lemma idConsistent_applyOp (sm : StateMachine) (op : MachineOp)
    (h : idConsistent sm) : idConsistent (applyOp sm op) := by
  cases op with
  | transition s => exact idConsistent_transition_to sm s
  | process rs => exact idConsistent_process_sensors sm rs h

/-! ### Manager lemmas -/

/-- `process_sensors` consumes the reading list only through its first
element (and non-emptiness). -/
lemma process_sensors_first (sm : StateMachine) (r : FVal)
    (rest rest' : List FVal) :
    process_sensors sm (r :: rest) = process_sensors sm (r :: rest') := rfl

lemma managerRun_aux (t1 : List (FVal × FVal × FVal)) :
    ∀ (t2 : List (FVal × FVal × FVal)) (sm : StateMachine),
    t1.map Prod.fst = t2.map Prod.fst →
    t1.foldl (fun sm t => process_sensors sm [t.1, t.2.1, t.2.2]) sm =
      t2.foldl (fun sm t => process_sensors sm [t.1, t.2.1, t.2.2]) sm := by
  induction t1 with
  | nil =>
    intro t2 sm h
    cases t2 with
    | nil => rfl
    | cons u us => simp at h
  | cons t ts ih =>
    intro t2 sm h
    cases t2 with
    | nil => simp at h
    | cons u us =>
      simp only [List.map_cons, List.cons.injEq] at h
      rw [List.foldl_cons, List.foldl_cons]
      have hstep : process_sensors sm [t.1, t.2.1, t.2.2] =
          process_sensors sm [u.1, u.2.1, u.2.2] := by
        rw [show t.1 = u.1 from h.1]
        exact process_sensors_first sm u.1 _ _
      rw [hstep]
      exact ih us _ h.2

/-! ### Sum over active contents -/

instance : RightCommutative fadd :=
  ⟨by
    intro b a1 a2
    cases b <;> cases a1 <;> cases a2 <;> simp [fadd]
    ring⟩

/-- The slot-order sum the code computes equals the sum over the active
contents read out in arrival order (the two lists are permutations). -/
lemma bufferSum_eq_active_contents (sm : StateMachine) :
    bufferSum sm.sensor_buffer sm.buffer_index =
      (active_contents sm).foldl fadd (some 0) := by
  unfold bufferSum active_contents
  split
  · rfl
  · rename_i hgt
    push_neg at hgt
    rw [List.take_of_length_le (le_of_lt hgt)]
    exact ((sm.sensor_buffer.rotate_perm _).foldl_eq _).symm

lemma nextAverage_eq_active (sm : StateMachine) (v : FVal) :
    nextAverage sm v =
      fdivNat ((active_contents (push_reading sm v)).foldl fadd (some 0))
        (active_count (push_reading sm v)) := by
  simp only [nextAverage]
  rw [bufferSum_eq_active_contents]
  rfl

/-! ### Claim theorems -/

/-- Claim C2: the source's `get_buffer_stats` on a freshly constructed
machine (zero pushes) returns the degenerate pair `(0, 0)` instead of
failing with an `EmptyBufferError` — no error path exists in the code, so
the claimed fail-fast behavior is absent. -/
theorem c2_empty_buffer_stats_degenerate :
    get_buffer_stats StateMachine.init = (some 0, some 0) := rfl

/-- Claim C3: the Idle threshold is a strict inequality — a reading of
exactly 20.0 keeps an Idle machine Idle, while 20.0001 transitions it to
`Monitoring` with `average_value` the reading and `sample_count` 1. -/
theorem c3_threshold_boundary_strict (sm : StateMachine)
    (h : sm.current_state = .IdleState) :
    (process_reading sm (some 20)).current_state = .IdleState ∧
    (process_reading sm (some (200001 / 10000))).current_state =
      .MonitoringState (some (200001 / 10000)) 1 :=
  ⟨step_idle_stay sm _ h (by simp [fgt]),
    step_idle_go sm _ h (by simp only [fgt, decide_eq_true_eq]; norm_num)⟩

/-- Witness for C3 at the freshly constructed machine. -/
theorem c3_threshold_boundary_strict_witness :
    (process_reading StateMachine.init (some 20)).current_state = .IdleState ∧
    (process_reading StateMachine.init (some (200001 / 10000))).current_state =
      .MonitoringState (some (200001 / 10000)) 1 :=
  c3_threshold_boundary_strict StateMachine.init rfl

/-- Claim C4: processing a reading in `Monitoring` increments
`sample_count`, recomputes `average_value` as the sum of the buffer's
active entries (the just-pushed reading included) divided by the active
count, and transitions to `Alert{Temperature High, 30.0}` precisely when
that recomputed average is strictly greater than 30.0. -/
theorem c4_monitoring_rule (sm : StateMachine) (v a : FVal) (c : ℤ)
    (h : sm.current_state = .MonitoringState a c) :
    nextAverage sm v =
      fdivNat ((active_contents (push_reading sm v)).foldl fadd (some 0))
        (active_count (push_reading sm v)) ∧
    (fgt (nextAverage sm v) (some 30) = true →
      (process_reading sm v).current_state =
        .AlertState "Temperature High" (some 30)) ∧
    (fgt (nextAverage sm v) (some 30) = false →
      (process_reading sm v).current_state =
        .MonitoringState (nextAverage sm v) (c + 1)) := by
  refine ⟨nextAverage_eq_active sm v, ?_, ?_⟩
  · intro hgt
    rw [step_monitoring sm v a c h, hgt]
    simp
  · intro hgt
    rw [step_monitoring sm v a c h, hgt]
    simp

/-- Witness for C4: the machine after one reading of 21.0 is in
`Monitoring`; processing 27.0 there keeps it in `Monitoring` with the
recomputed average 24.0. -/
theorem c4_monitoring_rule_witness :
    nextAverage (afterReadings [some 21]) (some 27) =
      fdivNat ((active_contents
          (push_reading (afterReadings [some 21]) (some 27))).foldl fadd (some 0))
        (active_count (push_reading (afterReadings [some 21]) (some 27))) ∧
    (fgt (nextAverage (afterReadings [some 21]) (some 27)) (some 30) = true →
      (process_reading (afterReadings [some 21]) (some 27)).current_state =
        .AlertState "Temperature High" (some 30)) ∧
    (fgt (nextAverage (afterReadings [some 21]) (some 27)) (some 30) = false →
      (process_reading (afterReadings [some 21]) (some 27)).current_state =
        .MonitoringState (nextAverage (afterReadings [some 21]) (some 27)) (1 + 1)) :=
  c4_monitoring_rule (afterReadings [some 21]) (some 27) (some 21) 1 (by decide)

/-- Claim C7: the state machine is deterministic — identical ordered
reading sequences run from a fresh machine yield identical final machines
(state variant, fields, and buffer contents); the embedding of
`process_sensors` is a pure function of the machine and the readings, so
no hidden nondeterminism exists. -/
theorem c7_determinism (readings₁ readings₂ : List FVal)
    (h : readings₁ = readings₂) :
    afterReadings readings₁ = afterReadings readings₂ := by
  rw [h]

/-- Witness for C7 on a concrete reading sequence. -/
theorem c7_determinism_witness :
    afterReadings [some 21, some 35, some 24] =
      afterReadings [some 21, some 35, some 24] :=
  c7_determinism _ _ rfl

/-- Claim C8: only the first sensor's reading per tick reaches the
buffer and the transition logic; two tick sequences agreeing on first
readings produce identical machines whatever the later sensors return. -/
theorem c8_first_source_noninterference
    (ticks ticks' : List (FVal × FVal × FVal))
    (h : ticks.map Prod.fst = ticks'.map Prod.fst) :
    managerRun ticks = managerRun ticks' :=
  managerRun_aux ticks ticks' StateMachine.init h

/-- Witness for C8: two ticks with equal first readings but different
humidity/pressure readings give the same machine. -/
theorem c8_first_source_noninterference_witness :
    managerRun [(some 21, some 45, some 1013)] =
      managerRun [(some 21, some 99, some 0)] :=
  c8_first_source_noninterference _ _ rfl

/-- Claim C9: a NaN reading never fires a threshold comparison: Idle stays
Idle, Monitoring stays Monitoring (never Alert, its recomputed average
being NaN), Alert stays Alert; the Calibrating counter rule (which
involves no reading comparison) proceeds as usual. -/
theorem c9_nan_never_fires_thresholds (sm : StateMachine) :
    (process_reading sm none).current_state =
      match sm.current_state with
      | .IdleState => .IdleState
      | .MonitoringState _ c => .MonitoringState none (c + 1)
      | .AlertState m t => .AlertState m t
      | .CalibratingState r s =>
          if s + 1 > 5 then .IdleState else .CalibratingState r (s + 1) := by
  rcases h : sm.current_state with _ | ⟨a, c⟩ | ⟨m, t⟩ | ⟨r, s⟩
  · exact step_idle_stay sm none h rfl
  · rw [step_monitoring sm none a c h, nextAverage_none]
    simp [fgt_none_left]
  · exact step_alert_stay sm none m t h rfl
  · exact step_calibrating sm none r s h

/-- Claim C10: after any sequence of `transition_to` and processing
operations from construction, the cached `StateId` discriminant always
names the live variant alternative. -/
theorem c10_discriminant_consistency (ops : List MachineOp) :
    get_current_state_id (runOps ops) = stateIdOf (runOps ops).current_state := by
  have hinv : ∀ (l : List MachineOp) (sm : StateMachine), idConsistent sm →
      idConsistent (l.foldl applyOp sm) := by
    intro l
    induction l with
    | nil => intro sm h; exact h
    | cons op rest ih => intro sm h; exact ih _ (idConsistent_applyOp sm op h)
  exact hinv ops StateMachine.init rfl

/-! ### Ring-buffer characterisation -/

lemma afterReadings_concat (l : List FVal) (v : FVal) :
    afterReadings (l ++ [v]) = process_reading (afterReadings l) v := by
  simp [afterReadings, List.foldl_append]

lemma afterReadings_shape (l : List FVal) :
    (afterReadings l).buffer_index = l.length ∧
    (afterReadings l).sensor_buffer.length = 10 := by
  induction l using List.reverseRecOn with
  | nil => exact ⟨rfl, rfl⟩
  | append_singleton l v ih =>
    obtain ⟨h1, h2⟩ := ih
    rw [afterReadings_concat]
    constructor
    · rw [(process_reading_buffer _ _).2, h1]
      simp
    · rw [(process_reading_buffer _ _).1, push_reading_sensor_buffer,
        List.length_set, h2]

/-- Slot contents after a run: each of the last `min len 10` pushes sits at
its index-mod-10 slot, and slots never written still hold the initial 0. -/
lemma afterReadings_slots (l : List FVal) :
    (∀ k, k < min l.length 10 →
      (afterReadings l).sensor_buffer[(l.length - 1 - k) % 10]? =
        l[l.length - 1 - k]?) ∧
    (∀ j, l.length ≤ j → j < 10 →
      (afterReadings l).sensor_buffer[j]? = some (some 0)) := by
  induction l using List.reverseRecOn with
  | nil =>
    constructor
    · intro k hk
      simp at hk
    · intro j _ hj
      show (List.replicate 10 (some 0) : List FVal)[j]? = some (some 0)
      exact List.getElem?_replicate_of_lt hj
  | append_singleton l v ih =>
    obtain ⟨hslot, hzero⟩ := ih
    obtain ⟨hidx, hlen⟩ := afterReadings_shape l
    have hbuf' : (afterReadings (l ++ [v])).sensor_buffer =
        (afterReadings l).sensor_buffer.set (l.length % 10) v := by
      rw [afterReadings_concat, (process_reading_buffer _ _).1,
        push_reading_sensor_buffer, hidx, hlen]
    constructor
    · intro k hk
      rw [hbuf']
      simp only [List.length_append, List.length_singleton] at hk ⊢
      rcases Nat.eq_zero_or_pos k with hk0 | hkpos
      · subst hk0
        rw [show l.length + 1 - 1 - 0 = l.length from by omega]
        rw [List.getElem?_set_self (by rw [hlen]; exact Nat.mod_lt _ (by norm_num)),
          List.getElem?_concat_length]
      · have hne : l.length % 10 ≠ (l.length + 1 - 1 - k) % 10 := by omega
        rw [List.getElem?_set_ne hne,
          List.getElem?_append_left (show l.length + 1 - 1 - k < l.length by omega)]
        have hrec := hslot (k - 1) (by omega)
        rw [show l.length - 1 - (k - 1) = l.length + 1 - 1 - k from by omega] at hrec
        exact hrec
    · intro j hj hj10
      rw [hbuf']
      simp only [List.length_append, List.length_singleton] at hj
      rw [List.getElem?_set_ne (by omega)]
      exact hzero j (by omega) hj10

/-- Claim C5: after any sequence of pushes, the active count is
`min(#pushes, 10)` and the buffer's active contents, read out in arrival
order, are exactly the most recent 10 pushes (older samples having been
evicted by the index-modulo-10 overwrite). -/
theorem c5_buffer_invariant (inputs : List FVal) :
    active_count (afterReadings inputs) = min inputs.length 10 ∧
    active_contents (afterReadings inputs) =
      inputs.drop (inputs.length - 10) := by
  obtain ⟨hidx, hlen⟩ := afterReadings_shape inputs
  obtain ⟨hslot, _⟩ := afterReadings_slots inputs
  constructor
  · rw [active_count, hidx, hlen]
  · unfold active_contents
    rw [hidx, hlen]
    split
    · rename_i hle
      rw [show inputs.length - 10 = 0 from by omega, List.drop_zero]
      apply List.ext_getElem?
      intro i
      rcases lt_or_le i inputs.length with hi | hi
      · rw [List.getElem?_take_of_lt hi]
        have hrec := hslot (inputs.length - 1 - i) (by omega)
        rw [show inputs.length - 1 - (inputs.length - 1 - i) = i from by omega,
          Nat.mod_eq_of_lt (by omega)] at hrec
        exact hrec
      · rw [List.getElem?_take_eq_none hi]
        exact (List.getElem?_eq_none hi).symm
    · rename_i hgt
      push_neg at hgt
      apply List.ext_getElem?
      intro i
      rcases lt_or_le i 10 with hi | hi
      · rw [List.getElem?_rotate (by rw [hlen]; exact hi), hlen,
          List.getElem?_drop]
        have hrec := hslot (9 - i) (by omega)
        rw [show inputs.length - 1 - (9 - i) = inputs.length - 10 + i from by omega,
          show (inputs.length - 10 + i) % 10 = (i + inputs.length % 10) % 10 from
            by omega] at hrec
        exact hrec
      · rw [List.getElem?_eq_none (by rw [List.length_rotate, hlen]; exact hi),
          List.getElem?_eq_none (by rw [List.length_drop]; omega)]

/-! ### C6: buffer/state consistency -/

lemma active_process_eq_push (sm : StateMachine) (v : FVal) :
    active_contents (process_reading sm v) = active_contents (push_reading sm v) ∧
    active_count (process_reading sm v) = active_count (push_reading sm v) := by
  obtain ⟨hb, hi⟩ := process_reading_buffer sm v
  unfold active_contents active_count
  rw [hb, hi, push_reading_buffer_index]
  exact ⟨rfl, rfl⟩

/-- Counterexample to claim C6: process 5.0 then 21.0 from a fresh machine.
The 5.0 tick keeps the machine Idle but still pushes 5.0 into the buffer;
the 21.0 tick transitions Idle → Monitoring seeding `average_value` with
the raw reading 21.0, while the buffer's active contents {5.0, 21.0}
average to 13.0 ≠ 21.0 — so the consistency invariant fails immediately
after the Idle→Monitoring transition. -/
theorem c6_counterexample :
    (afterReadings [some 5, some 21]).current_state =
      .MonitoringState (some 21) 1 ∧
    fdivNat ((active_contents (afterReadings [some 5, some 21])).foldl fadd
        (some 0))
      (active_count (afterReadings [some 5, some 21])) = some 13 ∧
    (some 21 : FVal) ≠ some 13 := by
  have e : afterReadings [some 5, some 21] =
      StateMachine.mk (.MonitoringState (some 21) 1) .MONITORING
        [some 5, some 21, some 0, some 0, some 0, some 0, some 0, some 0,
          some 0, some 0] 2 := rfl
  refine ⟨rfl, ?_, by norm_num⟩
  rw [e]
  norm_num [active_contents, active_count, fadd, fdivNat]

/-- Claim C6 (amended): for every reading processed while the state is
already `Monitoring`, any resulting `Monitoring` state's `average_value`
equals the average recomputed from the buffer's current active contents.
(Immediately after the Idle→Monitoring transition the field is instead
seeded with the raw triggering reading — see the counterexample.) -/
theorem c6_amended_monitoring_consistency (sm : StateMachine) (v a : FVal)
    (c : ℤ) (h : sm.current_state = .MonitoringState a c) (a' : FVal) (c' : ℤ)
    (h2 : (process_reading sm v).current_state = .MonitoringState a' c') :
    a' = fdivNat ((active_contents (process_reading sm v)).foldl fadd (some 0))
      (active_count (process_reading sm v)) := by
  rw [step_monitoring sm v a c h] at h2
  rcases hgt : fgt (nextAverage sm v) (some 30) with _ | _
  · rw [hgt] at h2
    simp at h2
    obtain ⟨ha, _⟩ := h2
    rw [← ha, nextAverage_eq_active]
    obtain ⟨hc1, hc2⟩ := active_process_eq_push sm v
    rw [hc1, hc2]
  · rw [hgt] at h2
    simp at h2

/-- Witness for the amended C6: in `Monitoring{21.0, 1}` with buffer {21.0},
processing 21.0 yields `Monitoring{21.0, 2}`, and 21.0 is exactly the
recomputed buffer average. -/
theorem c6_amended_monitoring_consistency_witness :
    (some 21 : FVal) =
      fdivNat ((active_contents (process_reading (afterReadings [some 21])
          (some 21))).foldl fadd (some 0))
        (active_count (process_reading (afterReadings [some 21]) (some 21))) := by
  have h2 : (process_reading (afterReadings [some 21]) (some 21)).current_state =
      .MonitoringState (some 21) 2 := by
    rw [show afterReadings [some 21] =
        StateMachine.mk (.MonitoringState (some 21) 1) .MONITORING
          [some 21, some 0, some 0, some 0, some 0, some 0, some 0, some 0,
            some 0, some 0] 1 from rfl]
    norm_num [process_reading, process_sensors, push_reading, bufferSum, fadd,
      fdivNat, fgt, StateMachine.transition_to]
  exact c6_amended_monitoring_consistency (afterReadings [some 21]) (some 21)
    (some 21) 1 rfl (some 21) 2 h2

/-! ### C1: the monotonic cycle -/

/-- Claim C1: from a fresh machine, 21.0 transitions Idle → Monitoring;
four further readings whose resulting running average stays ≤ 30.0 keep it
Monitoring (sample count climbing 2,3,4,5); a fifth reading pushing the
average above 30.0 transitions to `Alert{"Temperature High", 30.0}`; a
following 24.0 transitions to `Calibrating{22.5, 1}`; and five more
readings step the counter 2,3,4,5 and then return the machine to Idle
once the step exceeds 5. -/
theorem c1_monotonic_cycle (r1 r2 r3 r4 r5 t1 t2 t3 t4 t5 : FVal)
    (hA1 : fgt (nextAverage (afterReadings [some 21]) r1) (some 30) = false)
    (hA2 : fgt (nextAverage (afterReadings [some 21, r1]) r2) (some 30) = false)
    (hA3 : fgt (nextAverage (afterReadings [some 21, r1, r2]) r3)
      (some 30) = false)
    (hA4 : fgt (nextAverage (afterReadings [some 21, r1, r2, r3]) r4)
      (some 30) = false)
    (hA5 : fgt (nextAverage (afterReadings [some 21, r1, r2, r3, r4]) r5)
      (some 30) = true) :
    (afterReadings [some 21]).current_state = .MonitoringState (some 21) 1 ∧
    (afterReadings [some 21, r1]).current_state =
      .MonitoringState (nextAverage (afterReadings [some 21]) r1) 2 ∧
    (afterReadings [some 21, r1, r2]).current_state =
      .MonitoringState (nextAverage (afterReadings [some 21, r1]) r2) 3 ∧
    (afterReadings [some 21, r1, r2, r3]).current_state =
      .MonitoringState (nextAverage (afterReadings [some 21, r1, r2]) r3) 4 ∧
    (afterReadings [some 21, r1, r2, r3, r4]).current_state =
      .MonitoringState (nextAverage (afterReadings [some 21, r1, r2, r3]) r4) 5 ∧
    (afterReadings [some 21, r1, r2, r3, r4, r5]).current_state =
      .AlertState "Temperature High" (some 30) ∧
    (afterReadings [some 21, r1, r2, r3, r4, r5, some 24]).current_state =
      .CalibratingState (some (45 / 2)) 1 ∧
    (afterReadings [some 21, r1, r2, r3, r4, r5, some 24, t1]).current_state =
      .CalibratingState (some (45 / 2)) 2 ∧
    (afterReadings [some 21, r1, r2, r3, r4, r5, some 24, t1, t2]).current_state =
      .CalibratingState (some (45 / 2)) 3 ∧
    (afterReadings
        [some 21, r1, r2, r3, r4, r5, some 24, t1, t2, t3]).current_state =
      .CalibratingState (some (45 / 2)) 4 ∧
    (afterReadings
        [some 21, r1, r2, r3, r4, r5, some 24, t1, t2, t3, t4]).current_state =
      .CalibratingState (some (45 / 2)) 5 ∧
    (afterReadings
        [some 21, r1, r2, r3, r4, r5, some 24, t1, t2, t3, t4, t5]).current_state =
      .IdleState := by
  have m1 : (afterReadings [some 21]).current_state =
      .MonitoringState (some 21) 1 := by
    rw [show afterReadings [some 21] =
        process_reading StateMachine.init (some 21) from rfl]
    exact step_idle_go _ _ rfl (by norm_num [fgt])
  have m2 : (afterReadings [some 21, r1]).current_state =
      .MonitoringState (nextAverage (afterReadings [some 21]) r1) 2 := by
    rw [show afterReadings [some 21, r1] =
        process_reading (afterReadings [some 21]) r1 from rfl,
      step_monitoring _ r1 (some 21) 1 m1, hA1]
    norm_num
  have m3 : (afterReadings [some 21, r1, r2]).current_state =
      .MonitoringState (nextAverage (afterReadings [some 21, r1]) r2) 3 := by
    rw [show afterReadings [some 21, r1, r2] =
        process_reading (afterReadings [some 21, r1]) r2 from rfl,
      step_monitoring _ r2 _ 2 m2, hA2]
    norm_num
  have m4 : (afterReadings [some 21, r1, r2, r3]).current_state =
      .MonitoringState (nextAverage (afterReadings [some 21, r1, r2]) r3) 4 := by
    rw [show afterReadings [some 21, r1, r2, r3] =
        process_reading (afterReadings [some 21, r1, r2]) r3 from rfl,
      step_monitoring _ r3 _ 3 m3, hA3]
    norm_num
  have m5 : (afterReadings [some 21, r1, r2, r3, r4]).current_state =
      .MonitoringState (nextAverage (afterReadings [some 21, r1, r2, r3]) r4)
        5 := by
    rw [show afterReadings [some 21, r1, r2, r3, r4] =
        process_reading (afterReadings [some 21, r1, r2, r3]) r4 from rfl,
      step_monitoring _ r4 _ 4 m4, hA4]
    norm_num
  have m6 : (afterReadings [some 21, r1, r2, r3, r4, r5]).current_state =
      .AlertState "Temperature High" (some 30) := by
    rw [show afterReadings [some 21, r1, r2, r3, r4, r5] =
        process_reading (afterReadings [some 21, r1, r2, r3, r4]) r5 from rfl,
      step_monitoring _ r5 _ 5 m5, hA5]
    norm_num
  have m7 : (afterReadings
      [some 21, r1, r2, r3, r4, r5, some 24]).current_state =
      .CalibratingState (some (45 / 2)) 1 := by
    rw [show afterReadings [some 21, r1, r2, r3, r4, r5, some 24] =
        process_reading (afterReadings [some 21, r1, r2, r3, r4, r5])
          (some 24) from rfl]
    exact step_alert_go _ _ _ _ m6 (by norm_num [flt])
  have m8 : (afterReadings
      [some 21, r1, r2, r3, r4, r5, some 24, t1]).current_state =
      .CalibratingState (some (45 / 2)) 2 := by
    rw [show afterReadings [some 21, r1, r2, r3, r4, r5, some 24, t1] =
        process_reading (afterReadings [some 21, r1, r2, r3, r4, r5, some 24])
          t1 from rfl,
      step_calibrating _ t1 _ 1 m7]
    norm_num
  have m9 : (afterReadings
      [some 21, r1, r2, r3, r4, r5, some 24, t1, t2]).current_state =
      .CalibratingState (some (45 / 2)) 3 := by
    rw [show afterReadings [some 21, r1, r2, r3, r4, r5, some 24, t1, t2] =
        process_reading
          (afterReadings [some 21, r1, r2, r3, r4, r5, some 24, t1])
          t2 from rfl,
      step_calibrating _ t2 _ 2 m8]
    norm_num
  have m10 : (afterReadings
      [some 21, r1, r2, r3, r4, r5, some 24, t1, t2, t3]).current_state =
      .CalibratingState (some (45 / 2)) 4 := by
    rw [show afterReadings [some 21, r1, r2, r3, r4, r5, some 24, t1, t2, t3] =
        process_reading
          (afterReadings [some 21, r1, r2, r3, r4, r5, some 24, t1, t2])
          t3 from rfl,
      step_calibrating _ t3 _ 3 m9]
    norm_num
  have m11 : (afterReadings
      [some 21, r1, r2, r3, r4, r5, some 24, t1, t2, t3, t4]).current_state =
      .CalibratingState (some (45 / 2)) 5 := by
    rw [show afterReadings
        [some 21, r1, r2, r3, r4, r5, some 24, t1, t2, t3, t4] =
        process_reading
          (afterReadings [some 21, r1, r2, r3, r4, r5, some 24, t1, t2, t3])
          t4 from rfl,
      step_calibrating _ t4 _ 4 m10]
    norm_num
  have m12 : (afterReadings
      [some 21, r1, r2, r3, r4, r5, some 24, t1, t2, t3, t4, t5]).current_state =
      .IdleState := by
    rw [show afterReadings
        [some 21, r1, r2, r3, r4, r5, some 24, t1, t2, t3, t4, t5] =
        process_reading
          (afterReadings [some 21, r1, r2, r3, r4, r5, some 24, t1, t2, t3, t4])
          t5 from rfl,
      step_calibrating _ t5 _ 5 m11]
    norm_num
  exact ⟨m1, m2, m3, m4, m5, m6, m7, m8, m9, m10, m11, m12⟩

/-- Witness for C1: readings 21,21,21,21,300 then 24 then five 0-readings
drive the full Idle → Monitoring → Alert → Calibrating → Idle cycle. -/
theorem c1_monotonic_cycle_witness :
    (afterReadings [some 21]).current_state = .MonitoringState (some 21) 1 ∧
    (afterReadings [some 21, some 21]).current_state =
      .MonitoringState (nextAverage (afterReadings [some 21]) (some 21)) 2 ∧
    (afterReadings [some 21, some 21, some 21]).current_state =
      .MonitoringState (nextAverage (afterReadings [some 21, some 21])
        (some 21)) 3 ∧
    (afterReadings [some 21, some 21, some 21, some 21]).current_state =
      .MonitoringState (nextAverage (afterReadings [some 21, some 21, some 21])
        (some 21)) 4 ∧
    (afterReadings [some 21, some 21, some 21, some 21, some 21]).current_state =
      .MonitoringState
        (nextAverage (afterReadings [some 21, some 21, some 21, some 21])
          (some 21)) 5 ∧
    (afterReadings
        [some 21, some 21, some 21, some 21, some 21, some 300]).current_state =
      .AlertState "Temperature High" (some 30) ∧
    (afterReadings [some 21, some 21, some 21, some 21, some 21, some 300,
        some 24]).current_state = .CalibratingState (some (45 / 2)) 1 ∧
    (afterReadings [some 21, some 21, some 21, some 21, some 21, some 300,
        some 24, some 0]).current_state = .CalibratingState (some (45 / 2)) 2 ∧
    (afterReadings [some 21, some 21, some 21, some 21, some 21, some 300,
        some 24, some 0, some 0]).current_state =
      .CalibratingState (some (45 / 2)) 3 ∧
    (afterReadings [some 21, some 21, some 21, some 21, some 21, some 300,
        some 24, some 0, some 0, some 0]).current_state =
      .CalibratingState (some (45 / 2)) 4 ∧
    (afterReadings [some 21, some 21, some 21, some 21, some 21, some 300,
        some 24, some 0, some 0, some 0, some 0]).current_state =
      .CalibratingState (some (45 / 2)) 5 ∧
    (afterReadings [some 21, some 21, some 21, some 21, some 21, some 300,
        some 24, some 0, some 0, some 0, some 0, some 0]).current_state =
      .IdleState := by
  have e1 : afterReadings [some 21] =
      StateMachine.mk (.MonitoringState (some 21) 1) .MONITORING
        [some 21, some 0, some 0, some 0, some 0, some 0, some 0, some 0,
          some 0, some 0] 1 := rfl
  have e2 : afterReadings [some 21, some 21] =
      StateMachine.mk (.MonitoringState (some 21) 2) .MONITORING
        [some 21, some 21, some 0, some 0, some 0, some 0, some 0, some 0,
          some 0, some 0] 2 := by
    rw [show afterReadings [some 21, some 21] =
        process_reading (afterReadings [some 21]) (some 21) from rfl, e1]
    norm_num [process_reading, process_sensors, push_reading, bufferSum, fadd,
      fdivNat, fgt, StateMachine.transition_to]
  have e3 : afterReadings [some 21, some 21, some 21] =
      StateMachine.mk (.MonitoringState (some 21) 3) .MONITORING
        [some 21, some 21, some 21, some 0, some 0, some 0, some 0, some 0,
          some 0, some 0] 3 := by
    rw [show afterReadings [some 21, some 21, some 21] =
        process_reading (afterReadings [some 21, some 21]) (some 21) from rfl,
      e2]
    norm_num [process_reading, process_sensors, push_reading, bufferSum, fadd,
      fdivNat, fgt, StateMachine.transition_to]
  have e4 : afterReadings [some 21, some 21, some 21, some 21] =
      StateMachine.mk (.MonitoringState (some 21) 4) .MONITORING
        [some 21, some 21, some 21, some 21, some 0, some 0, some 0, some 0,
          some 0, some 0] 4 := by
    rw [show afterReadings [some 21, some 21, some 21, some 21] =
        process_reading (afterReadings [some 21, some 21, some 21])
          (some 21) from rfl, e3]
    norm_num [process_reading, process_sensors, push_reading, bufferSum, fadd,
      fdivNat, fgt, StateMachine.transition_to]
  have e5 : afterReadings [some 21, some 21, some 21, some 21, some 21] =
      StateMachine.mk (.MonitoringState (some 21) 5) .MONITORING
        [some 21, some 21, some 21, some 21, some 21, some 0, some 0, some 0,
          some 0, some 0] 5 := by
    rw [show afterReadings [some 21, some 21, some 21, some 21, some 21] =
        process_reading (afterReadings [some 21, some 21, some 21, some 21])
          (some 21) from rfl, e4]
    norm_num [process_reading, process_sensors, push_reading, bufferSum, fadd,
      fdivNat, fgt, StateMachine.transition_to]
  exact c1_monotonic_cycle (some 21) (some 21) (some 21) (some 21) (some 300)
    (some 0) (some 0) (some 0) (some 0) (some 0)
    (by rw [e1]; norm_num [nextAverage, push_reading, bufferSum, fadd,
      fdivNat, fgt])
    (by rw [e2]; norm_num [nextAverage, push_reading, bufferSum, fadd,
      fdivNat, fgt])
    (by rw [e3]; norm_num [nextAverage, push_reading, bufferSum, fadd,
      fdivNat, fgt])
    (by rw [e4]; norm_num [nextAverage, push_reading, bufferSum, fadd,
      fdivNat, fgt])
    (by rw [e5]; norm_num [nextAverage, push_reading, bufferSum, fadd,
      fdivNat, fgt])
